import Mathlib

set_option autoImplicit false
set_option maxRecDepth 4096
set_option linter.unusedVariables false

/-!
# Verification of the request-dispatch core of the vLLM production-stack router

This file gives a shallow embedding, in Lean 4, of the routing, statistics and
streaming-proxy core of the `production-stack` repository, and proves (or
refutes) the frozen specification claims about it.

Embedded source files:
* `src/router/routing_logic.py` — `RoundRobinRouter`, `SessionRouter`;
* `src/src/vllm_router/stats/request_stats.py` — `MovingAverageMonitor`,
  `RequestStatsMonitor` and its lifecycle events;
* `src/src/vllm_router/stats/engine_stats.py` — `EngineStatsScraper` map update;
* `src/src/vllm_router/services/request_service/request.py` — the event
  behaviour of the `process_request` streaming generator;
* `src/src/vllm_router/routers/main_router.py` — `show_models`;
* the `SingletonMeta` metaclass shared by the stats components.

Python `float` timestamps and statistics are modelled as `ℚ` (every concrete
value in the claims is an exact binary fraction, so no rounding questions
arise); Python `dict`s are modelled as insertion-ordered association lists
with `List.lookup` for `d[k]` / `k in d` and `dict_set` for `d[k] = v`.
-/

/-! ## SHA-256 (`hashlib.sha256`)

`SessionRouter` calls `hashlib.sha256(session_id.encode()).hexdigest()` and
interprets the digest as a big integer.  We implement SHA-256 (FIPS 180-4)
over byte lists, with 32-bit words as `Nat` reduced mod `2 ^ 32`.
-/

/-- Truncate to a 32-bit word. -/
def w32 (n : Nat) : Nat := n % 4294967296

/-- Right rotation of a 32-bit word. -/
def rotr32 (r x : Nat) : Nat := w32 ((x >>> r) ||| (x <<< (32 - r)))

/-- Bitwise complement of a 32-bit word. -/
def not32 (x : Nat) : Nat := 4294967295 - x

def sha256Ch (x y z : Nat) : Nat := (x &&& y) ^^^ (not32 x &&& z)

def sha256Maj (x y z : Nat) : Nat := (x &&& y) ^^^ (x &&& z) ^^^ (y &&& z)

def sha256S0 (x : Nat) : Nat := rotr32 2 x ^^^ rotr32 13 x ^^^ rotr32 22 x

def sha256S1 (x : Nat) : Nat := rotr32 6 x ^^^ rotr32 11 x ^^^ rotr32 25 x

def sha256s0 (x : Nat) : Nat := rotr32 7 x ^^^ rotr32 18 x ^^^ (x >>> 3)

def sha256s1 (x : Nat) : Nat := rotr32 17 x ^^^ rotr32 19 x ^^^ (x >>> 10)

/-- The 64 SHA-256 round constants (FIPS 180-4 §4.2.2, written in decimal). -/
def sha256K : List Nat :=
  [1116352408, 1899447441, 3049323471, 3921009573, 961987163,
   1508970993, 2453635748, 2870763221, 3624381080, 310598401,
   607225278, 1426881987, 1925078388, 2162078206, 2614888103,
   3248222580, 3835390401, 4022224774, 264347078, 604807628,
   770255983, 1249150122, 1555081692, 1996064986, 2554220882,
   2821834349, 2952996808, 3210313671, 3336571891, 3584528711,
   113926993, 338241895, 666307205, 773529912, 1294757372,
   1396182291, 1695183700, 1986661051, 2177026350, 2456956037,
   2730485921, 2820302411, 3259730800, 3345764771, 3516065817,
   3600352804, 4094571909, 275423344, 430227734, 506948616,
   659060556, 883997877, 958139571, 1322822218, 1537002063,
   1747873779, 1955562222, 2024104815, 2227730452, 2361852424,
   2428436474, 2756734187, 3204031479, 3329325298]

/-- The SHA-256 initial hash value (FIPS 180-4 §5.3.3, in decimal). -/
def sha256H0 : List Nat :=
  [1779033703, 3144134277, 1013904242, 2773480762, 1359893119,
   2600822924, 528734635, 1541459225]

/-- Big-endian bytes of a 32-bit word. -/
def word32BE (x : Nat) : List Nat :=
  [x / 16777216 % 256, x / 65536 % 256, x / 256 % 256, x % 256]

/-- Big-endian 8-byte encoding of the 64-bit message bit length. -/
def word64BE (x : Nat) : List Nat :=
  word32BE (x / 4294967296 % 4294967296) ++ word32BE (x % 4294967296)

/-- SHA-256 padding for a message of `len` bytes: `0x80`, zeros, then the
bit length, so that the total is a multiple of 64 bytes. -/
def sha256Pad (len : Nat) : List Nat :=
  0x80 :: List.replicate ((119 - len % 64) % 64) 0 ++ word64BE (8 * len)

/-- Split a byte list into 64-byte blocks (fuelled structural recursion; every
step consumes at least one byte, so `fuel = l.length` always suffices). -/
def sha256BlocksGo : Nat → List Nat → List (List Nat)
  | _, [] => []
  | 0, l => [l]
  | fuel + 1, b :: bs => ((b :: bs).take 64) :: sha256BlocksGo fuel ((b :: bs).drop 64)

/-- Split a byte list into 64-byte blocks. -/
def sha256Blocks (l : List Nat) : List (List Nat) := sha256BlocksGo l.length l

/-- Parse one 64-byte block into 16 big-endian 32-bit words. -/
def sha256Words : List Nat → List Nat
  | b0 :: b1 :: b2 :: b3 :: rest =>
      (b0 * 16777216 + b1 * 65536 + b2 * 256 + b3) :: sha256Words rest
  | _ => []

/-- Append the next word of the SHA-256 message schedule. -/
def sha256SchedStep (ws : List Nat) : List Nat :=
  let n := ws.length
  ws ++ [w32 (sha256s1 (ws.getD (n - 2) 0) + ws.getD (n - 7) 0 +
             sha256s0 (ws.getD (n - 15) 0) + ws.getD (n - 16) 0)]

/-- Extend the message schedule by `k` words. -/
def sha256Sched (ws : List Nat) : Nat → List Nat
  | 0 => ws
  | k + 1 => sha256Sched (sha256SchedStep ws) k

/-- Working state of the SHA-256 compression loop. -/
structure Sha256State where
  a : Nat
  b : Nat
  c : Nat
  d : Nat
  e : Nat
  f : Nat
  g : Nat
  h : Nat

/-- One round of the SHA-256 compression function. -/
def sha256Round (s : Sha256State) (kw : Nat × Nat) : Sha256State :=
  let t1 := w32 (s.h + sha256S1 s.e + sha256Ch s.e s.f s.g + kw.1 + kw.2)
  let t2 := w32 (sha256S0 s.a + sha256Maj s.a s.b s.c)
  { a := w32 (t1 + t2), b := s.a, c := s.b, d := s.c,
    e := w32 (s.d + t1), f := s.e, g := s.f, h := s.g }

/-- Compress one 64-byte block into the running hash value. -/
def sha256Compress (hv : List Nat) (block : List Nat) : List Nat :=
  let ws := sha256Sched (sha256Words block) 48
  let init : Sha256State :=
    { a := hv.getD 0 0, b := hv.getD 1 0, c := hv.getD 2 0, d := hv.getD 3 0,
      e := hv.getD 4 0, f := hv.getD 5 0, g := hv.getD 6 0, h := hv.getD 7 0 }
  let s := (sha256K.zip ws).foldl sha256Round init
  [w32 (hv.getD 0 0 + s.a), w32 (hv.getD 1 0 + s.b), w32 (hv.getD 2 0 + s.c),
   w32 (hv.getD 3 0 + s.d), w32 (hv.getD 4 0 + s.e), w32 (hv.getD 5 0 + s.f),
   w32 (hv.getD 6 0 + s.g), w32 (hv.getD 7 0 + s.h)]

/-- SHA-256 digest (32 bytes) of a byte list. -/
def sha256Bytes (msg : List Nat) : List Nat :=
  let padded := msg ++ sha256Pad msg.length
  ((sha256Blocks padded).foldl sha256Compress sha256H0).flatMap word32BE

/-- UTF-8 encoding of a Unicode code point (Python `str.encode()`). -/
def utf8Bytes (c : Nat) : List Nat :=
  if c < 128 then [c]
  else if c < 2048 then [192 ||| (c >>> 6), 128 ||| (c &&& 63)]
  else if c < 65536 then
    [224 ||| (c >>> 12), 128 ||| ((c >>> 6) &&& 63), 128 ||| (c &&& 63)]
  else
    [240 ||| (c >>> 18), 128 ||| ((c >>> 12) &&& 63),
     128 ||| ((c >>> 6) &&& 63), 128 ||| (c &&& 63)]

/-- The UTF-8 bytes of a string (`session_id.encode()`). -/
def strBytes (s : String) : List Nat := s.data.flatMap (fun c => utf8Bytes c.toNat)

/-- `int(hashlib.sha256(s.encode()).hexdigest(), 16)`: the SHA-256 digest of
the UTF-8 encoding of `s`, read as a big-endian integer. -/
def sha256Int (s : String) : Nat :=
  (sha256Bytes (strBytes s)).foldl (fun acc b => 256 * acc + b) 0

/-! ## Data model

`EndpointInfo` from `src/src/vllm_router/service_discovery.py` (the fields the
verified code paths read: `url`, `model_names`, `added_timestamp`,
`model_label`).  Python dictionaries are modelled as insertion-ordered
association lists: `d[k]`/`k in d` is `List.lookup`, `d[k] = v` is `dict_set`,
`d.get(k, v0)` is `dict_getD`.
-/

structure EndpointInfo where
  url : String
  model_names : List String
  added_timestamp : ℚ
  model_label : String
deriving DecidableEq, Repr

/-- Python `d[k] = v` on a dict kept as an association list: overwrite the
existing entry in place, otherwise append a new one. -/
def dict_set {α V : Type} [BEq α] : List (α × V) → α → V → List (α × V)
  | [], k, v => [(k, v)]
  | p :: rest, k, v => if p.1 == k then (k, v) :: rest else p :: dict_set rest k v

/-- Python `d.get(k, v0)`. -/
def dict_getD {α V : Type} [BEq α] (d : List (α × V)) (k : α) (v0 : V) : V :=
  (d.lookup k).getD v0

/-- Python compares strings lexicographically by code point.  (Defined
structurally on the character lists; core's `String.ltb` recurses on
iterators and does not reduce inside the kernel.) -/
def charListLe : List Char → List Char → Bool
  | [], _ => true
  | _ :: _, [] => false
  | a :: as, b :: bs =>
    if a.toNat < b.toNat then true
    else if b.toNat < a.toNat then false
    else charListLe as bs

/-- Lexicographic `≤` on strings — the order Python's `sorted` applies to
the `e.url` keys. -/
def strLe (a b : String) : Bool := charListLe a.data b.data

/-- `EngineStats` from `src/src/vllm_router/stats/engine_stats.py`. -/
structure EngineStats where
  num_running_requests : ℚ
  num_queuing_requests : ℚ
  gpu_prefix_cache_hit_rate : ℚ
  gpu_cache_usage_perc : ℚ
deriving DecidableEq, Repr

/-! ## Routing logic (`src/router/routing_logic.py`)

The two routing policies.  A FastAPI `Request` enters the routing code only
through `request.headers.get(self.session_key, None)`, so a request is
modelled by its header association list.  Routers return
`Option (result × updated router)`: `none` stands for a raised Python
exception (`ZeroDivisionError` on `% len(endpoints)` with an empty list —
the caller guarantees a non-empty list, and every claim assumes it).
-/

namespace RouterPkg

/-- `RequestStats` from `src/router/request_stats.py` (the fields of the
dataclass consumed by `SessionRouter._qps_routing`). -/
structure RequestStats where
  qps : ℚ
  inter_token_latency : ℚ
  ttft : ℚ
deriving DecidableEq, Repr

/-- `RoundRobinRouter.__init__`: the only state is the integer counter
`self.req_id`, starting at 0. -/
structure RoundRobinRouter where
  req_id : Nat
deriving DecidableEq, Repr

/-- `sorted(endpoints, key=lambda e: e.url)`: Python `sorted` is a stable
sort by the key, which a stable sort under the lexicographic order on URLs
models exactly. -/
def sorted_by_url (endpoints : List EndpointInfo) : List EndpointInfo :=
  List.insertionSort (fun a b => strLe a.url b.url = true) endpoints

/-- `RoundRobinRouter.route_request`:
`sorted(endpoints, key=lambda e: e.url)[self.req_id % len(endpoints)]`,
then `self.req_id += 1`.  `none` models the `ZeroDivisionError` raised on an
empty endpoint list (`% len(endpoints)`). -/
def RoundRobinRouter.route_request (self : RoundRobinRouter)
    (endpoints : List EndpointInfo)
    (engine_stats : List (String × EngineStats))
    (request_stats : List (String × RequestStats)) :
    Option (String × RoundRobinRouter) :=
  if endpoints.length = 0 then none
  else
    match (sorted_by_url endpoints).get? (self.req_id % endpoints.length) with
    | some e => some (e.url, ⟨self.req_id + 1⟩)
    | none => none

/-- `SessionRouter.__init__`: the `session_id → url` table and the header
name holding the session key. -/
structure SessionRouter where
  key_to_server_id : List (String × String)
  session_key : String
deriving DecidableEq, Repr

/-- `lowest_qps` starts as `float("inf")`; `none` plays `inf`, so every
finite qps compares below it. -/
def ltLowest (q : ℚ) : Option ℚ → Bool
  | none => true
  | some l => decide (q < l)

/-- The loop of `SessionRouter._qps_routing`: walk `endpoints`; an engine
with no stats entry is returned immediately; otherwise keep the url of the
lowest qps seen so far (`ret` starts as Python `None`). -/
def qps_routing_loop (request_stats : List (String × RequestStats)) :
    List EndpointInfo → Option String → Option ℚ → Option String
  | [], ret, _ => ret
  | info :: rest, ret, lowest =>
    match request_stats.lookup info.url with
    | none => some info.url
    | some rs =>
      if ltLowest rs.qps lowest then
        qps_routing_loop request_stats rest (some info.url) (some rs.qps)
      else
        qps_routing_loop request_stats rest ret lowest

/-- `SessionRouter._qps_routing`. -/
def SessionRouter.qps_routing (endpoints : List EndpointInfo)
    (request_stats : List (String × RequestStats)) : Option String :=
  qps_routing_loop request_stats endpoints none none

/-- `request.headers.get(key, None)`. -/
def headers_get (headers : List (String × String)) (k : String) : Option String :=
  headers.lookup k

/-- `SessionRouter.route_request`.  Branches exactly as the source:
* no session header → `_qps_routing` (the nested
  `if session_id is not None` store is dead code: the branch is only reached
  when `session_id is None`, so the table is unchanged);
* unmapped session id → `int(sha256(sid).hexdigest(), 16) % len(endpoints)`
  indexes the **given** endpoint list and the mapping is recorded;
* mapped session id → the stored url, unconditionally. -/
def SessionRouter.route_request (self : SessionRouter)
    (endpoints : List EndpointInfo)
    (engine_stats : List (String × EngineStats))
    (request_stats : List (String × RequestStats))
    (headers : List (String × String)) :
    Option (Option String × SessionRouter) :=
  match headers_get headers self.session_key with
  | none => some (SessionRouter.qps_routing endpoints request_stats, self)
  | some session_id =>
    match self.key_to_server_id.lookup session_id with
    | some url => some (some url, self)
    | none =>
      if hn : endpoints.length = 0 then none
      else
        let index := sha256Int session_id % endpoints.length
        let url := (endpoints.get ⟨index, Nat.mod_lt _ (Nat.pos_of_ne_zero hn)⟩).url
        some (some url, ⟨dict_set self.key_to_server_id session_id url, self.session_key⟩)

end RouterPkg

/-! ## Request statistics (`src/src/vllm_router/stats/request_stats.py`) -/

namespace VllmRouter

/-- `MovingAverageMonitor`: the parallel deques `self.timestamps` and
`self.values` (always pushed and popped in lock-step) are modelled zipped as
one list of `(timestamp, value)` pairs. -/
structure MovingAverageMonitor where
  sliding_window_size : ℚ
  window : List (ℚ × ℚ)
deriving DecidableEq, Repr

/-- `MovingAverageMonitor.update`: append the data point, then pop entries
from the front while the front timestamp is `< timestamp - W` (the `while`
loop is exactly `List.dropWhile` on the front). -/
def MovingAverageMonitor.update (m : MovingAverageMonitor)
    (timestamp value : ℚ) : MovingAverageMonitor :=
  { m with window := ((m.window ++ [(timestamp, value)]).dropWhile
      (fun e => decide (e.1 < timestamp - m.sliding_window_size))) }

/-- `MovingAverageMonitor.update_no_value`: evict-only touch. -/
def MovingAverageMonitor.update_no_value (m : MovingAverageMonitor)
    (timestamp : ℚ) : MovingAverageMonitor :=
  { m with window := (m.window.dropWhile
      (fun e => decide (e.1 < timestamp - m.sliding_window_size))) }

/-- `MovingAverageMonitor.get_average`:
`sum(self.values) / len(self.values) if self.values else -1`. -/
def MovingAverageMonitor.get_average (m : MovingAverageMonitor) : ℚ :=
  if m.window.isEmpty then -1
  else (m.window.map Prod.snd).sum / m.window.length

/-- `MovingAverageMonitor.get_sum`. -/
def MovingAverageMonitor.get_sum (m : MovingAverageMonitor) : ℚ :=
  (m.window.map Prod.snd).sum

/-- `RequestStats` dataclass (per-engine sliding-window view). -/
structure RequestStats where
  qps : ℚ
  ttft : ℚ
  in_prefill_requests : Int
  in_decoding_requests : Int
  finished_requests : Int
  uptime : ℚ
  avg_decoding_length : ℚ
  avg_latency : ℚ
  avg_itl : ℚ
  num_swapped_requests : Int
deriving DecidableEq, Repr

/-- The mutable state of `RequestStatsMonitor` after `__init__`. -/
structure RequestStatsMonitor where
  sliding_window_size : ℚ
  qps_monitors : List (String × MovingAverageMonitor)
  ttft_monitors : List (String × MovingAverageMonitor)
  request_start_time : List ((String × String) × ℚ)
  first_token_time : List ((String × String) × ℚ)
  in_prefill_requests : List (String × Int)
  in_decoding_requests : List (String × Int)
  finished_requests : List (String × Int)
  latency_monitors : List (String × MovingAverageMonitor)
  decoding_length_monitors : List (String × MovingAverageMonitor)
  swapped_requests : List (String × Int)
  first_query_time : Option ℚ
deriving DecidableEq, Repr

/-- `RequestStatsMonitor.__init__(sliding_window_size)`: all maps empty,
`first_query_time = None`. -/
def RequestStatsMonitor.init (sliding_window_size : ℚ) : RequestStatsMonitor :=
  { sliding_window_size := sliding_window_size
    qps_monitors := [], ttft_monitors := []
    request_start_time := [], first_token_time := []
    in_prefill_requests := [], in_decoding_requests := []
    finished_requests := []
    latency_monitors := [], decoding_length_monitors := []
    swapped_requests := [], first_query_time := none }

/-- The create-if-absent-then-update pattern both event handlers apply to a
`{url → MovingAverageMonitor}` dict:
`if engine_url not in mons: mons[engine_url] = MovingAverageMonitor(W)`
followed by `mons[engine_url].update(timestamp, value)`. -/
def monitor_ensure_update (mons : List (String × MovingAverageMonitor))
    (W : ℚ) (u : String) (timestamp value : ℚ) :
    List (String × MovingAverageMonitor) :=
  let m0s := if (mons.lookup u).isSome then mons else dict_set mons u ⟨W, []⟩
  match m0s.lookup u with
  | some m => dict_set m0s u (m.update timestamp value)
  | none => m0s

/-- `RequestStatsMonitor.on_new_request`: record the start time, bump
`in_prefill_requests[url]` (creating it at 0 first), push `(timestamp, 1)`
into the url's qps window (creating the monitor if absent), and set
`first_query_time` on the first ever request. -/
def RequestStatsMonitor.on_new_request (self : RequestStatsMonitor)
    (engine_url request_id : String) (timestamp : ℚ) : RequestStatsMonitor :=
  let start := dict_set self.request_start_time (engine_url, request_id) timestamp
  let p0 := if (self.in_prefill_requests.lookup engine_url).isSome
    then self.in_prefill_requests else dict_set self.in_prefill_requests engine_url 0
  let p1 := dict_set p0 engine_url (dict_getD p0 engine_url 0 + 1)
  let q1 := monitor_ensure_update self.qps_monitors self.sliding_window_size
    engine_url timestamp 1
  { self with
    request_start_time := start
    in_prefill_requests := p1
    qps_monitors := q1
    first_query_time := match self.first_query_time with
      | none => some timestamp
      | some t => some t }

/-- `RequestStatsMonitor.on_request_response`: no-op for an unknown
`(engine_url, request_id)`; otherwise record the first-token time, move the
request from prefill to decoding (prefill clamped at 0, using Python's
`.get(url, 1) - 1`), and push the TTFT sample into the url's ttft window. -/
def RequestStatsMonitor.on_request_response (self : RequestStatsMonitor)
    (engine_url request_id : String) (timestamp : ℚ) : RequestStatsMonitor :=
  match self.request_start_time.lookup (engine_url, request_id) with
  | none => self
  | some start =>
    let ftt := dict_set self.first_token_time (engine_url, request_id) timestamp
    let d0 := if (self.in_decoding_requests.lookup engine_url).isSome
      then self.in_decoding_requests
      else dict_set self.in_decoding_requests engine_url 0
    let p1 := dict_set self.in_prefill_requests engine_url
      (max 0 (dict_getD self.in_prefill_requests engine_url 1 - 1))
    let d1 := dict_set d0 engine_url (dict_getD d0 engine_url 0 + 1)
    let t1 := monitor_ensure_update self.ttft_monitors self.sliding_window_size
      engine_url timestamp (timestamp - start)
    { self with
      first_token_time := ftt
      in_prefill_requests := p1
      in_decoding_requests := d1
      ttft_monitors := t1 }

/-- `RequestStatsMonitor.on_request_complete`: bump `finished_requests[url]`
(creating it at 0 first) and decrement `in_decoding_requests[url]` clamped at
0 (Python's `max(0, .get(url, 1) - 1)`).  The `request_start_time` and
`first_token_time` entries are **not** removed (the source keeps them — its
comment in `on_request_response` says "do not pop so we can compute overall
latency later"). -/
def RequestStatsMonitor.on_request_complete (self : RequestStatsMonitor)
    (engine_url request_id : String) (timestamp : ℚ) : RequestStatsMonitor :=
  let f0 := if (self.finished_requests.lookup engine_url).isSome
    then self.finished_requests else dict_set self.finished_requests engine_url 0
  let d1 := dict_set self.in_decoding_requests engine_url
    (max 0 (dict_getD self.in_decoding_requests engine_url 1 - 1))
  let f1 := dict_set f0 engine_url (dict_getD f0 engine_url 0 + 1)
  { self with finished_requests := f1, in_decoding_requests := d1 }

/-- `RequestStatsMonitor.on_request_swapped`. -/
def RequestStatsMonitor.on_request_swapped (self : RequestStatsMonitor)
    (engine_url request_id : String) (timestamp : ℚ) : RequestStatsMonitor :=
  let s0 := if (self.swapped_requests.lookup engine_url).isSome
    then self.swapped_requests else dict_set self.swapped_requests engine_url 0
  let s1 := dict_set s0 engine_url (dict_getD s0 engine_url 0 + 1)
  { self with swapped_requests := s1 }

/-- The `RequestStats` record packed for one url inside
`RequestStatsMonitor.get_request_stats`.  The source's in-place
`update_no_value(current_time)` touches only evict expired window entries;
the eviction is computed here at the point each monitor is read. -/
def RequestStatsMonitor.stats_for (self : RequestStatsMonitor)
    (current_time : ℚ) (engine_url : String) : RequestStats :=
  { qps := match self.qps_monitors.lookup engine_url with
      | none => -1
      | some m => (m.update_no_value current_time).get_sum / self.sliding_window_size
    ttft := match self.ttft_monitors.lookup engine_url with
      | none => -1
      | some m => (m.update_no_value current_time).get_average
    in_prefill_requests := dict_getD self.in_prefill_requests engine_url 0
    in_decoding_requests := dict_getD self.in_decoding_requests engine_url 0
    finished_requests := dict_getD self.finished_requests engine_url 0
    uptime := match self.first_query_time with
      | none => 0
      | some t => if t = 0 then 0 else current_time - t
    avg_decoding_length := match self.decoding_length_monitors.lookup engine_url with
      | none => -1
      | some m => m.get_average
    avg_latency := match self.latency_monitors.lookup engine_url with
      | none => -1
      | some m => m.get_average
    avg_itl := -1
    num_swapped_requests := match self.swapped_requests.lookup engine_url with
      | none => 0
      | some n => n }

/-- `RequestStatsMonitor.get_request_stats(current_time)`: one `RequestStats`
per url in the union of the `in_prefill_requests` and `in_decoding_requests`
key sets (a Python `set`; the result is a dict keyed by url, so only lookup
matters, which `dedup` preserves).  `uptime` follows Python truthiness:
`current_time - first_query_time if self.first_query_time else 0` is 0 both
for `None` and for a first query at time `0.0`. -/
def RequestStatsMonitor.get_request_stats (self : RequestStatsMonitor)
    (current_time : ℚ) : List (String × RequestStats) :=
  ((self.in_prefill_requests.map Prod.fst)
      ++ (self.in_decoding_requests.map Prod.fst)).dedup.map
    (fun url => (url, self.stats_for current_time url))

/-- One lifecycle event fired into the monitor by the streaming proxy. -/
inductive ReqEvent where
  | new (engine_url request_id : String) (timestamp : ℚ)
  | response (engine_url request_id : String) (timestamp : ℚ)
  | complete (engine_url request_id : String) (timestamp : ℚ)
  | swapped (engine_url request_id : String) (timestamp : ℚ)
deriving DecidableEq, Repr

/-- Dispatch one lifecycle event to the monitor. -/
def RequestStatsMonitor.apply (self : RequestStatsMonitor) :
    ReqEvent → RequestStatsMonitor
  | .new u r t => self.on_new_request u r t
  | .response u r t => self.on_request_response u r t
  | .complete u r t => self.on_request_complete u r t
  | .swapped u r t => self.on_request_swapped u r t

/-- The timestamp carried by a lifecycle event. -/
def ReqEvent.time : ReqEvent → ℚ
  | .new _ _ t => t
  | .response _ _ t => t
  | .complete _ _ t => t
  | .swapped _ _ t => t

/-- The monitor state reached from a fresh
`RequestStatsMonitor(sliding_window_size = W)` by a sequence of lifecycle
events. -/
def runEvents (W : ℚ) (evs : List ReqEvent) : RequestStatsMonitor :=
  evs.foldl RequestStatsMonitor.apply (RequestStatsMonitor.init W)

/-- The specification's view of window eviction at time `now`: keep exactly
the entries that are not older than `now - W` (a filter, not merely a pop
from the front). -/
def window_keep (W now : ℚ) (entries : List (ℚ × ℚ)) : List (ℚ × ℚ) :=
  entries.filter (fun e => decide (¬ e.1 < now - W))

/-- The well-formedness the wall-clock caller maintains for one window:
its size is the monitor-wide `W`, its timestamps are non-decreasing, and all
of them are at most the last observed time `t`. -/
def MovingAverageMonitor.WellFormed (m : MovingAverageMonitor) (W t : ℚ) : Prop :=
  m.sliding_window_size = W ∧
  m.window.Pairwise (fun a b => a.1 ≤ b.1) ∧
  ∀ e ∈ m.window, e.1 ≤ t

/-- All qps and ttft monitors of the state are well formed at time `t`. -/
def RequestStatsMonitor.WellFormed (st : RequestStatsMonitor) (t : ℚ) : Prop :=
  (∀ url m, st.qps_monitors.lookup url = some m →
      m.WellFormed st.sliding_window_size t) ∧
  (∀ url m, st.ttft_monitors.lookup url = some m →
      m.WellFormed st.sliding_window_size t)

end VllmRouter

/-! ## Streaming proxy event behaviour
(`src/src/vllm_router/services/request_service/request.py`, `process_request`)

`process_request` is an async generator.  Its observable interaction with the
`RequestStatsMonitor` is fully determined by how the backend call unfolds, so
we model one execution by the backend's behaviour and compute the list of
lifecycle events the generator fires:

* line 95: `on_new_request` is fired unconditionally before the backend call;
* the `async with ... stream(...)` block: if connecting fails the context
  manager raises and nothing below runs;
* inside the `async for` chunk loop: `on_request_response` is fired at the
  first chunk; a backend stream error, or a client disconnect (FastAPI closes
  the generator, throwing `GeneratorExit` at the current `yield`), exits the
  block by exception;
* line 132: `on_request_complete` is fired **after** the `async with` block,
  with no `try/finally` around it, so it only runs when the block is exited
  normally, i.e. when the chunk loop finished cleanly.
-/

/-- How the backend leg of one proxied request unfolds: the connection
attempt fails, or the backend streams `chunks` and the stream then either
ends cleanly (`endedCleanly = true`) or is cut short by a backend error or a
client abort (`endedCleanly = false`). -/
inductive BackendOutcome where
  | connectError
  | streamed (chunks : List (List Nat)) (endedCleanly : Bool)
deriving DecidableEq, Repr

/-- Which lifecycle callback was invoked on the request-stats monitor. -/
inductive LifecycleEv where
  | onNewRequest
  | onRequestResponse
  | onRequestComplete
deriving DecidableEq, Repr

/-- The sequence of monitor callbacks `process_request` fires for one
execution with backend behaviour `o`. -/
def process_request_events (o : BackendOutcome) : List LifecycleEv :=
  match o with
  | .connectError => [.onNewRequest]
  | .streamed chunks endedCleanly =>
    [LifecycleEv.onNewRequest]
      ++ (if chunks.isEmpty then [] else [LifecycleEv.onRequestResponse])
      ++ (if endedCleanly then [LifecycleEv.onRequestComplete] else [])

/-! ## Engine statistics scraping
(`src/src/vllm_router/stats/engine_stats.py`, `EngineStatsScraper`) -/

/-- The collection loop of `_scrape_metrics`: for each discovered endpoint,
`_scrape_one_endpoint` either yields an `EngineStats` (HTTP and parse
succeeded) or `None` (logged failure); successes are written into the
`collected_engine_stats` dict.  (`if engine_stats:` is true exactly for
non-`None` results — a dataclass instance is always truthy.)  The
per-endpoint fetch is abstracted by the oracle `scrape`. -/
def collect_round (endpoints : List EndpointInfo)
    (scrape : String → Option EngineStats) : List (String × EngineStats) :=
  endpoints.foldl
    (fun acc info =>
      match scrape info.url with
      | some es => dict_set acc info.url es
      | none => acc)
    []

/-- The map update at the end of `_scrape_metrics`: delete every old url not
collected in this round, then upsert every collected entry. -/
def scrape_metrics_update (old collected : List (String × EngineStats)) :
    List (String × EngineStats) :=
  let afterDelete := old.filter (fun p => (collected.lookup p.1).isSome)
  collected.foldl (fun acc p => dict_set acc p.1 p.2) afterDelete

/-- One whole `_scrape_metrics` round against the stored map `old`. -/
def scrape_round (old : List (String × EngineStats))
    (endpoints : List EndpointInfo) (scrape : String → Option EngineStats) :
    List (String × EngineStats) :=
  scrape_metrics_update old (collect_round endpoints scrape)

/-- Modelled from the spec: "After scraping all URLs, atomically replace the
stats map with the newly collected set."  Wholesale replacement, to be
compared with the incremental `scrape_metrics_update` of the source. -/
def scrape_round_spec (old : List (String × EngineStats))
    (endpoints : List EndpointInfo) (scrape : String → Option EngineStats) :
    List (String × EngineStats) :=
  collect_round endpoints scrape

/-! ## `/v1/models` (`src/src/vllm_router/routers/main_router.py`,
`show_models`) -/

/-- `ModelCard` (`protocols.py`). -/
structure ModelCard where
  id : String
  object : String
  created : ℚ
  owned_by : String
deriving DecidableEq, Repr

/-- `ModelList` (`protocols.py`). -/
structure ModelList where
  object : String
  data : List ModelCard
deriving DecidableEq, Repr

/-- The attribute access `endpoint.model_name` performed by `show_models`.
`EndpointInfo` (`service_discovery.py`, lines 41–62) defines `model_names`
(a list) and no `model_name` attribute, so in Python this access raises
`AttributeError` — it never yields a value. -/
def EndpointInfo.model_name (e : EndpointInfo) : Except String String :=
  .error "AttributeError: 'EndpointInfo' object has no attribute 'model_name'"

/-- The loop of `show_models`: `existing_models` is the set of ids already
emitted, `model_cards` the accumulated cards.  Each iteration first evaluates
`endpoint.model_name in existing_models`, so the attribute error surfaces on
the first endpoint processed. -/
def show_models_loop (existing_models : List String)
    (model_cards : List ModelCard) :
    List EndpointInfo → Except String ModelList
  | [] => .ok { object := "list", data := model_cards }
  | e :: rest =>
    match e.model_name with
    | .error err => .error err
    | .ok name =>
      if name ∈ existing_models then
        show_models_loop existing_models model_cards rest
      else
        show_models_loop (name :: existing_models)
          (model_cards ++ [{ id := name, object := "model",
                             created := e.added_timestamp, owned_by := "vllm" }])
          rest

/-- `show_models()` over a snapshot of discovery endpoints: `.error`
models the `AttributeError` escaping the handler (an HTTP 500), `.ok` the
JSON `ModelList` response. -/
def show_models (endpoints : List EndpointInfo) : Except String ModelList :=
  show_models_loop [] [] endpoints

/-- Modelled from the spec: "Return `{object:"list", data:[{id,
object:"model", created:added_timestamp, owned_by:"vllm"} for each distinct
model across all endpoints]}`" — one card per distinct model identifier in
the endpoints' `model_names`, created from the carrying endpoint's
`added_timestamp`. -/
def show_models_spec (endpoints : List EndpointInfo) : ModelList :=
  { object := "list"
    data := (endpoints.foldl
      (fun (acc : List String × List ModelCard) e =>
        e.model_names.foldl
          (fun acc name =>
            if name ∈ acc.1 then acc
            else (name :: acc.1,
                  acc.2 ++ [{ id := name, object := "model",
                              created := e.added_timestamp,
                              owned_by := "vllm" }]))
          acc)
      ([], [])).2 }

/-! ## Singleton construction (`SingletonMeta`)

`SingletonMeta.__call__` (`request_stats.py`, lines 10–17, and the same
pattern in `utils.py` used by `EngineStatsScraper`): if no instance of the
class exists, construct one (running `__init__` with the given arguments) and
store it; otherwise return the stored instance without running `__init__` at
all.  We model the per-class instance slot (`cls._instances[cls]`) as an
`Option` threaded through the call, and `__init__` as the state builder of
each class; `.error` models a raised exception. -/

/-- `RequestStatsMonitor.__init__` as invoked through the metaclass:
`sliding_window_size` is `Option`al because the constructor's default is
`None`, and a first construction with `None` raises `ValueError`. -/
def RequestStatsMonitor_call (slot : Option VllmRouter.RequestStatsMonitor)
    (sliding_window_size : Option ℚ) :
    Except String (VllmRouter.RequestStatsMonitor × Option VllmRouter.RequestStatsMonitor) :=
  match slot with
  | some inst => .ok (inst, some inst)
  | none =>
    match sliding_window_size with
    | none => .error "ValueError: RequestStatsMonitor must be initialized with sliding_window_size"
    | some w =>
      let inst := VllmRouter.RequestStatsMonitor.init w
      .ok (inst, some inst)

/-- The state of `EngineStatsScraper` relevant to construction (the scrape
thread and lock are runtime artefacts with no observable data). -/
structure EngineStatsScraper where
  scrape_interval : ℚ
  engine_stats : List (String × EngineStats)
  running : Bool
deriving DecidableEq, Repr

/-- `EngineStatsScraper.__init__` as invoked through the metaclass. -/
def EngineStatsScraper_call (slot : Option EngineStatsScraper)
    (scrape_interval : Option ℚ) :
    Except String (EngineStatsScraper × Option EngineStatsScraper) :=
  match slot with
  | some inst => .ok (inst, some inst)
  | none =>
    match scrape_interval with
    | none => .error "ValueError: EngineStatsScraper must be initialized with scrape_interval"
    | some iv =>
      let inst : EngineStatsScraper :=
        { scrape_interval := iv, engine_stats := [], running := true }
      .ok (inst, some inst)

/-!
## Theorems

Helper lemmas first, then one theorem per claim (with its witness or
counterexample where required).
-/

/-- FIPS 180-4 test vector, validating the `hashlib.sha256` model:
`sha256("abc")`. -/
theorem sha256_abc_test_vector :
    sha256Int "abc" =
      0xba7816bf8f01cfea414140de5dae2223b00361a396177a9cb410ff61f20015ad := by
  decide

/-- `List.lookup` after a `dict_set`: the written key reads back the written
value, every other key is untouched. -/
theorem lookup_dict_set {α V : Type} [BEq α] [LawfulBEq α]
    (d : List (α × V)) (k k' : α) (v : V) :
    (dict_set d k v).lookup k' = if k' == k then some v else d.lookup k' := by
  induction d with
  | nil =>
    by_cases h : k' == k <;> simp [dict_set, List.lookup, h]
  | cons p rest ih =>
    obtain ⟨a, b⟩ := p
    by_cases hp : a == k
    · have hak : a = k := by simpa using hp
      subst hak
      by_cases h : k' == a <;> simp [dict_set, List.lookup, h]
    · by_cases h : k' == a
      · have hka : k' = a := by simpa using h
        subst hka
        have hkk : ¬ (k' == k) = true := hp
        simp [dict_set, List.lookup, hp, h, hkk]
      · simp [dict_set, List.lookup, hp, h, ih]

/-- Head comparison of the lexicographic byte order. -/
theorem charListLe_cons_iff (a b : Char) (as bs : List Char) :
    charListLe (a :: as) (b :: bs) = true ↔
      a.toNat < b.toNat ∨ (a.toNat = b.toNat ∧ charListLe as bs = true) := by
  by_cases h1 : a.toNat < b.toNat
  · simp [charListLe, h1]
  · by_cases h2 : b.toNat < a.toNat
    · simp [charListLe, h1, h2]
      omega
    · have he : a.toNat = b.toNat := by omega
      simp [charListLe, h1, h2, he]

/-- The lexicographic order is total. -/
theorem charListLe_total : ∀ as bs : List Char,
    charListLe as bs = true ∨ charListLe bs as = true
  | [], _ => Or.inl rfl
  | _ :: _, [] => Or.inr rfl
  | a :: as, b :: bs => by
    by_cases h1 : a.toNat < b.toNat
    · left
      simp [charListLe, h1]
    · by_cases h2 : b.toNat < a.toNat
      · right
        simp [charListLe, h1, h2]
      · rcases charListLe_total as bs with h | h
        · left
          simp [charListLe, h1, h2, h]
        · right
          simp [charListLe, h1, h2, h]

/-- The lexicographic order is transitive. -/
theorem charListLe_trans : ∀ as bs cs : List Char,
    charListLe as bs = true → charListLe bs cs = true → charListLe as cs = true
  | [], _, _, _, _ => rfl
  | _ :: _, [], _, h, _ => by simp [charListLe] at h
  | _ :: _, _ :: _, [], _, h => by simp [charListLe] at h
  | a :: as, b :: bs, c :: cs, h1, h2 => by
    rw [charListLe_cons_iff] at h1 h2 ⊢
    rcases h1 with h1 | ⟨he1, hr1⟩
    · rcases h2 with h2 | ⟨he2, hr2⟩
      · exact Or.inl (by omega)
      · exact Or.inl (by omega)
    · rcases h2 with h2 | ⟨he2, hr2⟩
      · exact Or.inl (by omega)
      · exact Or.inr ⟨by omega, charListLe_trans as bs cs hr1 hr2⟩

/-- The lexicographic order is antisymmetric. -/
theorem charListLe_antisymm : ∀ as bs : List Char,
    charListLe as bs = true → charListLe bs as = true → as = bs
  | [], [], _, _ => rfl
  | [], _ :: _, _, h => by simp [charListLe] at h
  | _ :: _, [], h, _ => by simp [charListLe] at h
  | a :: as, b :: bs, h1, h2 => by
    rw [charListLe_cons_iff] at h1 h2
    have he : a.toNat = b.toNat := by omega
    have hab : a = b := Char.ext (UInt32.toNat.inj he)
    have h1' : charListLe as bs = true := by
      rcases h1 with h1 | ⟨_, hr⟩
      · omega
      · exact hr
    have h2' : charListLe bs as = true := by
      rcases h2 with h2 | ⟨_, hr⟩
      · omega
      · exact hr
    rw [hab, charListLe_antisymm as bs h1' h2']

/-- `strLe` is antisymmetric on strings. -/
theorem strLe_antisymm {a b : String} (h1 : strLe a b = true)
    (h2 : strLe b a = true) : a = b :=
  String.ext (charListLe_antisymm _ _ h1 h2)

/-- `_qps_routing`'s loop only ever returns a url of the remaining endpoint
list, unless it falls through to the incoming accumulator. -/
theorem qps_routing_loop_mem (request_stats : List (String × RouterPkg.RequestStats)) :
    ∀ (l : List EndpointInfo) (ret : Option String) (lowest : Option ℚ) (url : String),
      RouterPkg.qps_routing_loop request_stats l ret lowest = some url →
      url ∈ l.map EndpointInfo.url ∨ ret = some url := by
  intro l
  induction l with
  | nil =>
    intro ret lowest url h
    exact Or.inr h
  | cons info rest ih =>
    intro ret lowest url h
    rw [RouterPkg.qps_routing_loop] at h
    cases hs : request_stats.lookup info.url with
    | none =>
      rw [hs] at h
      left
      simp at h
      simp [h]
    | some rs =>
      rw [hs] at h
      dsimp only at h
      by_cases hlt : RouterPkg.ltLowest rs.qps lowest
      · rw [if_pos hlt] at h
        rcases ih _ _ _ h with hm | hr
        · exact Or.inl (List.mem_cons_of_mem _ hm)
        · left
          simp at hr
          simp [hr]
      · rw [if_neg hlt] at h
        rcases ih _ _ _ h with hm | hr
        · exact Or.inl (List.mem_cons_of_mem _ hm)
        · exact Or.inr hr

/-! ### Claim C5 — round-robin policy -/

/-- **Claim C5**: the round-robin router keeps the integer counter
`req_id`, and a routing call returns the url at position `req_id mod n` of
the endpoint list sorted by URL (any list that is a permutation of the
endpoint urls and sorted in lexicographic order — that list is unique),
incrementing the counter; concretely, from a fresh router over the
two-endpoint set `{http://a:8000, http://b:8000}` (presented unsorted),
three successive calls return `http://a:8000`, `http://b:8000`,
`http://a:8000`. -/
theorem C5_round_robin_policy :
    (∀ (i : Nat) (endpoints : List EndpointInfo)
        (engine_stats : List (String × EngineStats))
        (request_stats : List (String × RouterPkg.RequestStats))
        (sortedUrls : List String),
        sortedUrls.Perm (endpoints.map EndpointInfo.url) →
        sortedUrls.Sorted (fun a b => strLe a b = true) →
        RouterPkg.RoundRobinRouter.route_request ⟨i⟩ endpoints
            engine_stats request_stats =
          (sortedUrls.get? (i % endpoints.length)).map (fun u => (u, ⟨i + 1⟩))) ∧
    (RouterPkg.RoundRobinRouter.route_request ⟨0⟩
        [⟨"http://b:8000", ["m1"], 0, ""⟩, ⟨"http://a:8000", ["m1"], 0, ""⟩] [] [] =
      some ("http://a:8000", ⟨1⟩)) ∧
    (RouterPkg.RoundRobinRouter.route_request ⟨1⟩
        [⟨"http://b:8000", ["m1"], 0, ""⟩, ⟨"http://a:8000", ["m1"], 0, ""⟩] [] [] =
      some ("http://b:8000", ⟨2⟩)) ∧
    (RouterPkg.RoundRobinRouter.route_request ⟨2⟩
        [⟨"http://b:8000", ["m1"], 0, ""⟩, ⟨"http://a:8000", ["m1"], 0, ""⟩] [] [] =
      some ("http://a:8000", ⟨3⟩)) := by
  refine ⟨?_, by decide, by decide, by decide⟩
  intro i endpoints engine_stats request_stats sortedUrls hperm hsorted
  by_cases hlen : endpoints.length = 0
  · have hnil : endpoints = [] := List.length_eq_zero.mp hlen
    subst hnil
    have : sortedUrls = [] := hperm.eq_nil
    subst this
    simp [RouterPkg.RoundRobinRouter.route_request]
  · have hkey : (RouterPkg.sorted_by_url endpoints).map EndpointInfo.url
        = sortedUrls := by
      haveI : IsAntisymm String (fun a b : String => strLe a b = true) :=
        ⟨fun a b h1 h2 => strLe_antisymm h1 h2⟩
      haveI htot : IsTotal EndpointInfo
          (fun a b : EndpointInfo => strLe a.url b.url = true) :=
        ⟨fun a b => charListLe_total _ _⟩
      haveI htr : IsTrans EndpointInfo
          (fun a b : EndpointInfo => strLe a.url b.url = true) :=
        ⟨fun a b c h1 h2 => charListLe_trans _ _ _ h1 h2⟩
      apply List.eq_of_perm_of_sorted (r := fun a b : String => strLe a b = true)
      · exact ((List.perm_insertionSort _ endpoints).map EndpointInfo.url).trans
          hperm.symm
      · exact List.Pairwise.map EndpointInfo.url (fun a b h => h)
          (List.sorted_insertionSort _ endpoints)
      · exact hsorted
    rw [← hkey, List.get?_map]
    rw [RouterPkg.RoundRobinRouter.route_request, if_neg hlen]
    cases h : (RouterPkg.sorted_by_url endpoints).get? (i % endpoints.length) with
    | none => simp [h]
    | some e => simp [h]

/-- Witness for C5 at a concrete input: counter 2, the two-endpoint set
presented unsorted, the sorted url list given explicitly. -/
theorem C5_round_robin_policy_witness :
    RouterPkg.RoundRobinRouter.route_request ⟨2⟩
        [⟨"http://b:8000", ["m1"], 0, ""⟩, ⟨"http://a:8000", ["m1"], 0, ""⟩] [] [] =
      ((["http://a:8000", "http://b:8000"] : List String).get? (2 % 2)).map
        (fun u => (u, ⟨3⟩)) :=
  C5_round_robin_policy.1 2
    [⟨"http://b:8000", ["m1"], 0, ""⟩, ⟨"http://a:8000", ["m1"], 0, ""⟩] [] []
    ["http://a:8000", "http://b:8000"] (by decide) (by decide)

/-! ### Claim C1 — behaviour for an already-mapped session id -/

/-- **Claim C1** (corrected): for a mapped session id, `route_request`
returns the stored url **unconditionally** — whether or not that url is
still present in the endpoint list — and leaves the table unchanged; the
source performs no membership check and never re-hashes a mapped id. -/
theorem C1_mapped_session_returns_stored :
    ∀ (sr : RouterPkg.SessionRouter) (endpoints : List EndpointInfo)
      (engine_stats : List (String × EngineStats))
      (request_stats : List (String × RouterPkg.RequestStats))
      (headers : List (String × String)) (sid url : String),
      RouterPkg.headers_get headers sr.session_key = some sid →
      sr.key_to_server_id.lookup sid = some url →
      sr.route_request endpoints engine_stats request_stats headers =
        some (some url, sr) := by
  intro sr endpoints engine_stats request_stats headers sid url hh hm
  simp [RouterPkg.SessionRouter.route_request, hh, hm]

/-- Witness for C1: a mapped session id is returned its stored url. -/
theorem C1_mapped_session_returns_stored_witness :
    RouterPkg.SessionRouter.route_request
        ⟨[("s9", "http://b:8000")], "x-session-id"⟩
        [⟨"http://a:8000", ["m1"], 0, ""⟩] [] [] [("x-session-id", "s9")] =
      some (some "http://b:8000", ⟨[("s9", "http://b:8000")], "x-session-id"⟩) :=
  C1_mapped_session_returns_stored ⟨[("s9", "http://b:8000")], "x-session-id"⟩
    [⟨"http://a:8000", ["m1"], 0, ""⟩] [] [] [("x-session-id", "s9")]
    "s9" "http://b:8000" rfl rfl

/-- Counterexample to C1 as stated: session `s1` is mapped to
`http://b:8000`, which is **absent** from the endpoint list
`[http://a:8000]`; the claim demands a re-hash (which over the singleton
list would return `http://a:8000` at index `sha256("s1") mod 1 = 0`) and an
overwrite, but the code returns the stale `http://b:8000` with the table
unchanged. -/
theorem C1_counterexample :
    RouterPkg.SessionRouter.route_request
        ⟨[("s1", "http://b:8000")], "x-session-id"⟩
        [⟨"http://a:8000", ["m1"], 0, ""⟩] [] [] [("x-session-id", "s1")] =
      some (some "http://b:8000", ⟨[("s1", "http://b:8000")], "x-session-id"⟩) ∧
    sha256Int "s1" % 1 = 0 ∧
    (([⟨"http://a:8000", ["m1"], 0, ""⟩] : List EndpointInfo).get? 0).map
        EndpointInfo.url = some "http://a:8000" ∧
    "http://b:8000" ≠ "http://a:8000" := by
  refine ⟨by decide, by decide, by decide, by decide⟩

/-! ### Claim C3 — membership of the routing decision -/

/-- **Claim C3** (corrected): the round-robin policy always returns a url of
the input endpoint list; the session policy does so whenever every stored
mapping consulted for the presented session id points into the list (in
particular for unmapped ids and for requests without a session header), but
a mapped session id whose stored url has left the endpoint list is returned
that outside url. -/
theorem C3_returned_url_in_endpoint_list :
    (∀ (rr : RouterPkg.RoundRobinRouter) (endpoints : List EndpointInfo)
        (engine_stats : List (String × EngineStats))
        (request_stats : List (String × RouterPkg.RequestStats))
        (url : String) (rr' : RouterPkg.RoundRobinRouter),
        RouterPkg.RoundRobinRouter.route_request rr endpoints
            engine_stats request_stats = some (url, rr') →
        url ∈ endpoints.map EndpointInfo.url) ∧
    (∀ (sr : RouterPkg.SessionRouter) (endpoints : List EndpointInfo)
        (engine_stats : List (String × EngineStats))
        (request_stats : List (String × RouterPkg.RequestStats))
        (headers : List (String × String))
        (url : String) (sr' : RouterPkg.SessionRouter),
        (∀ sid u, RouterPkg.headers_get headers sr.session_key = some sid →
            sr.key_to_server_id.lookup sid = some u →
            u ∈ endpoints.map EndpointInfo.url) →
        sr.route_request endpoints engine_stats request_stats headers =
            some (some url, sr') →
        url ∈ endpoints.map EndpointInfo.url) := by
  constructor
  · intro rr endpoints engine_stats request_stats url rr' hroute
    rw [RouterPkg.RoundRobinRouter.route_request] at hroute
    by_cases hlen : endpoints.length = 0
    · rw [if_pos hlen] at hroute
      exact absurd hroute (by simp)
    · rw [if_neg hlen] at hroute
      cases hget : (RouterPkg.sorted_by_url endpoints).get?
          (rr.req_id % endpoints.length) with
      | none =>
        rw [hget] at hroute
        exact absurd hroute (by simp)
      | some e =>
        rw [hget] at hroute
        obtain ⟨he, _⟩ : e.url = url ∧ (⟨rr.req_id + 1⟩ : RouterPkg.RoundRobinRouter) = rr' := by
          simpa using hroute
        have hmem : e ∈ RouterPkg.sorted_by_url endpoints := List.get?_mem hget
        have hmem2 : e ∈ endpoints :=
          (List.perm_insertionSort _ endpoints).mem_iff.mp hmem
        exact he ▸ List.mem_map_of_mem EndpointInfo.url hmem2
  · intro sr endpoints engine_stats request_stats headers url sr' hmapped hroute
    rw [RouterPkg.SessionRouter.route_request] at hroute
    cases hh : RouterPkg.headers_get headers sr.session_key with
    | none =>
      rw [hh] at hroute
      dsimp only at hroute
      obtain ⟨hq, _⟩ : RouterPkg.SessionRouter.qps_routing endpoints request_stats
          = some url ∧ sr = sr' := by simpa using hroute
      rcases qps_routing_loop_mem request_stats endpoints none none url hq with hm | hm
      · exact hm
      · exact absurd hm (by simp)
    | some sid =>
      rw [hh] at hroute
      dsimp only at hroute
      cases hl : sr.key_to_server_id.lookup sid with
      | some u =>
        rw [hl] at hroute
        obtain ⟨hu, _⟩ : u = url ∧ sr = sr' := by simpa using hroute
        exact hu ▸ hmapped sid u hh hl
      | none =>
        rw [hl] at hroute
        by_cases hn : endpoints.length = 0
        · rw [dif_pos hn] at hroute
          exact absurd hroute (by simp)
        · rw [dif_neg hn] at hroute
          obtain ⟨hu, _⟩ :
              (endpoints.get ⟨sha256Int sid % endpoints.length,
                  Nat.mod_lt _ (Nat.pos_of_ne_zero hn)⟩).url = url ∧ _ = sr' := by
            simpa using hroute
          exact hu ▸ List.mem_map_of_mem EndpointInfo.url (endpoints.get_mem _ _)

/-- Witness for C3: a request without a session header against a singleton
endpoint list is routed to that endpoint's url. -/
theorem C3_returned_url_in_endpoint_list_witness :
    "http://a:8000" ∈
      ([⟨"http://a:8000", ["m1"], 0, ""⟩] : List EndpointInfo).map EndpointInfo.url :=
  C3_returned_url_in_endpoint_list.2 ⟨[], "x-session-id"⟩
    [⟨"http://a:8000", ["m1"], 0, ""⟩] [] [] [] "http://a:8000"
    ⟨[], "x-session-id"⟩
    (by intro sid u h1 h2; exact absurd h1 (by simp [RouterPkg.headers_get]))
    rfl

/-- Counterexample to C3 as stated: session `s1` mapped to `http://c:8000`
is routed to `http://c:8000`, which is not the url of any `EndpointInfo` in
the input list. -/
theorem C3_counterexample :
    RouterPkg.SessionRouter.route_request
        ⟨[("s1", "http://c:8000")], "x-session-id"⟩
        [⟨"http://a:8000", ["m1"], 0, ""⟩] [] [] [("x-session-id", "s1")] =
      some (some "http://c:8000", ⟨[("s1", "http://c:8000")], "x-session-id"⟩) ∧
    "http://c:8000" ∉
      ([⟨"http://a:8000", ["m1"], 0, ""⟩] : List EndpointInfo).map EndpointInfo.url := by
  refine ⟨by decide, by decide⟩

/-! ### Claim C4 — consistent hashing of an unmapped session id -/

/-- **Claim C4** (corrected): an unmapped session id is assigned
`endpoints[int(sha256(sid), 16) % n].url` where `endpoints` is the list
**as given** — the source does not sort it — and the mapping is recorded;
thereafter the same sid is returned that same url on every subsequent call
(against any endpoint list), so determinism holds per presentation order,
not per endpoint set. -/
theorem C4_unmapped_session_hashing :
    ∀ (sr : RouterPkg.SessionRouter) (endpoints : List EndpointInfo)
      (engine_stats : List (String × EngineStats))
      (request_stats : List (String × RouterPkg.RequestStats))
      (headers : List (String × String)) (sid : String) (e : EndpointInfo),
      RouterPkg.headers_get headers sr.session_key = some sid →
      sr.key_to_server_id.lookup sid = none →
      endpoints.get? (sha256Int sid % endpoints.length) = some e →
      (sr.route_request endpoints engine_stats request_stats headers =
          some (some e.url,
            ⟨dict_set sr.key_to_server_id sid e.url, sr.session_key⟩) ∧
        ∀ (endpoints2 : List EndpointInfo)
          (engine_stats2 : List (String × EngineStats))
          (request_stats2 : List (String × RouterPkg.RequestStats))
          (headers2 : List (String × String)),
          RouterPkg.headers_get headers2 sr.session_key = some sid →
          RouterPkg.SessionRouter.route_request
              ⟨dict_set sr.key_to_server_id sid e.url, sr.session_key⟩
              endpoints2 engine_stats2 request_stats2 headers2 =
            some (some e.url,
              ⟨dict_set sr.key_to_server_id sid e.url, sr.session_key⟩)) := by
  intro sr endpoints engine_stats request_stats headers sid e hh hm hget
  obtain ⟨hlt, hgete⟩ := List.get?_eq_some.mp hget
  have hn : ¬ endpoints.length = 0 := by omega
  constructor
  · rw [RouterPkg.SessionRouter.route_request, hh]
    dsimp only
    rw [hm]
    rw [dif_neg hn]
    rw [hgete]
  · intro endpoints2 engine_stats2 request_stats2 headers2 hh2
    have hl2 : (dict_set sr.key_to_server_id sid e.url).lookup sid = some e.url := by
      rw [lookup_dict_set]
      simp
    simp [RouterPkg.SessionRouter.route_request, hh2, hl2]

/-- Witness for C4: fresh router, session `s1`, endpoints presented
`[http://b:8000, http://a:8000]`; `sha256("s1") mod 2 = 0` picks the first
element of the list as given, `http://b:8000`. -/
theorem C4_unmapped_session_hashing_witness :
    RouterPkg.SessionRouter.route_request ⟨[], "x-session-id"⟩
        [⟨"http://b:8000", ["m1"], 0, ""⟩, ⟨"http://a:8000", ["m1"], 0, ""⟩]
        [] [] [("x-session-id", "s1")] =
      some (some "http://b:8000", ⟨[("s1", "http://b:8000")], "x-session-id"⟩) :=
  (C4_unmapped_session_hashing ⟨[], "x-session-id"⟩
    [⟨"http://b:8000", ["m1"], 0, ""⟩, ⟨"http://a:8000", ["m1"], 0, ""⟩]
    [] [] [("x-session-id", "s1")] "s1" ⟨"http://b:8000", ["m1"], 0, ""⟩
    rfl rfl (by decide)).1

/-- Counterexample to C4 as stated: the same session id `s1` against the
same endpoint set presented in two different orders is assigned two
different urls, and with the unsorted presentation
`[http://b:8000, http://a:8000]` the code picks index
`sha256("s1") mod 2 = 0` of the **unsorted** list (`http://b:8000`), not of
the list sorted by URL (`http://a:8000`). -/
theorem C4_counterexample :
    (RouterPkg.SessionRouter.route_request ⟨[], "x-session-id"⟩
        [⟨"http://b:8000", ["m1"], 0, ""⟩, ⟨"http://a:8000", ["m1"], 0, ""⟩]
        [] [] [("x-session-id", "s1")]).map Prod.fst = some (some "http://b:8000") ∧
    (RouterPkg.SessionRouter.route_request ⟨[], "x-session-id"⟩
        [⟨"http://a:8000", ["m1"], 0, ""⟩, ⟨"http://b:8000", ["m1"], 0, ""⟩]
        [] [] [("x-session-id", "s1")]).map Prod.fst = some (some "http://a:8000") ∧
    sha256Int "s1" % 2 = 0 ∧
    (([⟨"http://a:8000", ["m1"], 0, ""⟩, ⟨"http://b:8000", ["m1"], 0, ""⟩] :
        List EndpointInfo).map EndpointInfo.url).get? 0 = some "http://a:8000" ∧
    "http://b:8000" ≠ "http://a:8000" := by
  refine ⟨by decide, by decide, by decide, by decide, by decide⟩

/-! ### Claim C8 — the scrape-round map update -/

/-- A key is absent from a dict exactly when no entry carries it. -/
theorem lookup_eq_none_iff {α V : Type} [BEq α] [LawfulBEq α]
    (d : List (α × V)) (k : α) :
    d.lookup k = none ↔ k ∉ d.map Prod.fst := by
  induction d with
  | nil => simp [List.lookup]
  | cons p rest ih =>
    by_cases h : k == p.1
    · have hk : k = p.1 := by simpa using h
      simp [List.lookup, h, hk]
    · have hne : ¬ k = p.1 := by simpa using h
      simp [List.lookup, h, hne, ih]

/-- `dict_set` either rewrites an entry in place (keys unchanged) or appends
the new key at the end. -/
theorem map_fst_dict_set {α V : Type} [BEq α] [LawfulBEq α]
    (d : List (α × V)) (k : α) (v : V) :
    (dict_set d k v).map Prod.fst =
      if (d.lookup k).isSome then d.map Prod.fst
      else d.map Prod.fst ++ [k] := by
  induction d with
  | nil => simp [dict_set, List.lookup]
  | cons p rest ih =>
    by_cases h : p.1 == k
    · have hk : p.1 = k := by simpa using h
      have h' : (k == p.1) = true := by simp [hk]
      simp [dict_set, h, List.lookup, h', hk]
    · have hne : ¬ (k == p.1) = true := by
        simp only [beq_iff_eq] at h ⊢
        exact fun e => h e.symm
      by_cases hl : (rest.lookup k).isSome <;>
        simp [dict_set, h, List.lookup, hne, ih, hl]

/-- `dict_set` preserves key uniqueness. -/
theorem nodup_keys_dict_set {α V : Type} [BEq α] [LawfulBEq α]
    (d : List (α × V)) (k : α) (v : V)
    (h : (d.map Prod.fst).Nodup) : ((dict_set d k v).map Prod.fst).Nodup := by
  rw [map_fst_dict_set]
  by_cases hl : (d.lookup k).isSome
  · simp [hl, h]
  · have hk : k ∉ d.map Prod.fst :=
      (lookup_eq_none_iff d k).mp (Option.not_isSome_iff_eq_none.mp hl)
    simp [hl, List.nodup_append, h, hk]

/-- The `collected_engine_stats` dict has unique keys. -/
theorem collect_round_nodup_keys (endpoints : List EndpointInfo)
    (scrape : String → Option EngineStats) :
    ((collect_round endpoints scrape).map Prod.fst).Nodup := by
  suffices h : ∀ (l : List EndpointInfo) (acc : List (String × EngineStats)),
      (acc.map Prod.fst).Nodup →
      ((l.foldl (fun acc info =>
          match scrape info.url with
          | some es => dict_set acc info.url es
          | none => acc) acc).map Prod.fst).Nodup by
    exact h endpoints [] (by simp)
  intro l
  induction l with
  | nil => intro acc h; exact h
  | cons info rest ih =>
    intro acc hacc
    cases hs : scrape info.url with
    | none => simpa [hs] using ih acc hacc
    | some es =>
      simpa [hs] using ih (dict_set acc info.url es)
        (nodup_keys_dict_set acc info.url es hacc)

/-- A url is collected in a round exactly when it is a discovered endpoint
whose scrape succeeded. -/
theorem collect_round_lookup_isSome (endpoints : List EndpointInfo)
    (scrape : String → Option EngineStats) (k : String) :
    ((collect_round endpoints scrape).lookup k).isSome ↔
      k ∈ endpoints.map EndpointInfo.url ∧ (scrape k).isSome := by
  suffices h : ∀ (l : List EndpointInfo) (acc : List (String × EngineStats)),
      ((l.foldl (fun acc info =>
          match scrape info.url with
          | some es => dict_set acc info.url es
          | none => acc) acc).lookup k).isSome ↔
        ((k ∈ l.map EndpointInfo.url ∧ (scrape k).isSome) ∨ (acc.lookup k).isSome) by
    have := h endpoints []
    simpa [collect_round, List.lookup] using this
  intro l
  induction l with
  | nil => intro acc; simp
  | cons info rest ih =>
    intro acc
    cases hs : scrape info.url with
    | none =>
      simp only [List.foldl_cons, hs]
      rw [ih acc]
      constructor
      · rintro (⟨hm, hsk⟩ | hacc)
        · exact Or.inl ⟨List.mem_cons_of_mem _ hm, hsk⟩
        · exact Or.inr hacc
      · rintro (⟨hm, hsk⟩ | hacc)
        · rcases List.mem_cons.mp hm with he | hm'
          · rw [he] at hsk
            rw [hs] at hsk
            simp at hsk
          · exact Or.inl ⟨hm', hsk⟩
        · exact Or.inr hacc
    | some es =>
      simp only [List.foldl_cons, hs]
      rw [ih (dict_set acc info.url es)]
      rw [lookup_dict_set]
      by_cases he : k = info.url
      · subst he
        simp [hs]
      · have : ¬ (k == info.url) = true := by simpa using he
        simp only [this, if_neg, List.map_cons, List.mem_cons]
        constructor
        · rintro (⟨hm, hsk⟩ | hacc)
          · exact Or.inl ⟨Or.inr hm, hsk⟩
          · exact Or.inr hacc
        · rintro (⟨he2 | hm, hsk⟩ | hacc)
          · exact absurd he2 he
          · exact Or.inl ⟨hm, hsk⟩
          · exact Or.inr hacc

/-- Upserting a unique-keyed batch of entries: a key reads back from the
batch first, from the starting dict otherwise. -/
theorem foldl_dict_set_lookup :
    ∀ (ps acc : List (String × EngineStats)) (k : String),
      ((ps.map Prod.fst).Nodup) →
      (ps.foldl (fun a p => dict_set a p.1 p.2) acc).lookup k =
        (ps.lookup k).or (acc.lookup k)
  | [], acc, k, _ => by simp [List.lookup]
  | p :: rest, acc, k, hnd => by
    have hnd' : (rest.map Prod.fst).Nodup := (List.nodup_cons.mp hnd).2
    have hmem : p.1 ∉ rest.map Prod.fst := (List.nodup_cons.mp hnd).1
    simp only [List.foldl_cons]
    rw [foldl_dict_set_lookup rest (dict_set acc p.1 p.2) k hnd']
    rw [lookup_dict_set]
    by_cases he : k = p.1
    · have hb : (k == p.1) = true := by simpa using he
      have hr : rest.lookup k = none := by
        rw [lookup_eq_none_iff, he]
        exact hmem
      simp [List.lookup, hb, hr]
    · have hb : ¬ (k == p.1) = true := by simpa using he
      simp [List.lookup, hb]

/-- If a key was not collected this round, the delete pass removes every old
entry under it. -/
theorem lookup_filter_none (old collected : List (String × EngineStats))
    (k : String) (h : collected.lookup k = none) :
    (old.filter (fun p => (collected.lookup p.1).isSome)).lookup k = none := by
  induction old with
  | nil => simp [List.lookup]
  | cons p rest ih =>
    by_cases hp : (collected.lookup p.1).isSome
    · by_cases he : k = p.1
      · subst he
        rw [h] at hp
        simp at hp
      · have hb : ¬ (k == p.1) = true := by simpa using he
        simp [List.filter_cons, hp, List.lookup, hb, ih]
    · simp [List.filter_cons, hp, ih]

/-- **Claim C8**: one `_scrape_metrics` round updates the stored map to
exactly the map collected in that round — the incremental
delete-missing-then-upsert pass is extensionally the wholesale replacement —
and the resulting domain is precisely the set of endpoint urls whose scrape
succeeded this round (urls absent from the round, failed scrapes included,
are dropped). -/
theorem C8_scrape_round_equals_replacement :
    ∀ (old : List (String × EngineStats)) (endpoints : List EndpointInfo)
      (scrape : String → Option EngineStats) (k : String),
      (scrape_round old endpoints scrape).lookup k =
        (scrape_round_spec old endpoints scrape).lookup k ∧
      (((scrape_round old endpoints scrape).lookup k).isSome ↔
        k ∈ endpoints.map EndpointInfo.url ∧ (scrape k).isSome) := by
  intro old endpoints scrape k
  have hnodup := collect_round_nodup_keys endpoints scrape
  have hmain : (scrape_round old endpoints scrape).lookup k =
      ((collect_round endpoints scrape).lookup k).or
        ((old.filter (fun p =>
            ((collect_round endpoints scrape).lookup p.1).isSome)).lookup k) :=
    foldl_dict_set_lookup _ _ k hnodup
  have heq : (scrape_round old endpoints scrape).lookup k =
      (collect_round endpoints scrape).lookup k := by
    rw [hmain]
    cases hc : (collect_round endpoints scrape).lookup k with
    | some v => simp
    | none => simp [lookup_filter_none old _ k hc]
  refine ⟨heq, ?_⟩
  rw [heq]
  exact collect_round_lookup_isSome endpoints scrape k

/-! ### Claim C10 — singleton construction -/

/-- **Claim C10**: `RequestStatsMonitor` and `EngineStatsScraper` are
singletons with idempotent construction: once an instance exists, calling the
class again with any argument (including a different window size or scrape
interval, or none at all) returns the original instance unchanged, ignoring
the arguments; in particular a second construction never changes the
configuration fixed by the first. -/
theorem C10_singleton_construction :
    (∀ (inst : VllmRouter.RequestStatsMonitor) (arg : Option ℚ),
        RequestStatsMonitor_call (some inst) arg = .ok (inst, some inst)) ∧
    (∀ (inst : EngineStatsScraper) (arg : Option ℚ),
        EngineStatsScraper_call (some inst) arg = .ok (inst, some inst)) ∧
    (∀ (w1 : ℚ) (arg : Option ℚ)
        (inst : VllmRouter.RequestStatsMonitor)
        (slot : Option VllmRouter.RequestStatsMonitor),
        RequestStatsMonitor_call none (some w1) = .ok (inst, slot) →
          RequestStatsMonitor_call slot arg = .ok (inst, slot) ∧
          inst.sliding_window_size = w1) := by
  refine ⟨fun inst arg => rfl, fun inst arg => rfl, ?_⟩
  intro w1 arg inst slot h
  obtain ⟨h1, h2⟩ : VllmRouter.RequestStatsMonitor.init w1 = inst ∧
      some (VllmRouter.RequestStatsMonitor.init w1) = slot := by
    simpa [RequestStatsMonitor_call] using h
  subst h1
  subst h2
  exact ⟨rfl, rfl⟩

/-- Witness for C10: constructing again with a different window size (10)
returns the instance built with window size 60. -/
theorem C10_singleton_construction_witness :
    RequestStatsMonitor_call (some (VllmRouter.RequestStatsMonitor.init 60)) (some 10) =
      .ok (VllmRouter.RequestStatsMonitor.init 60,
           some (VllmRouter.RequestStatsMonitor.init 60)) :=
  C10_singleton_construction.1 (VllmRouter.RequestStatsMonitor.init 60) (some 10)

/-! ### Claim C2 — when `on_request_complete` fires -/

/-- **Claim C2** (corrected): `process_request` fires `on_request_complete`
exactly when the backend stream ends cleanly.  `on_new_request` always fires,
but on a backend connect error, or when the stream is cut short by a backend
error or mid-stream abort, the generator is exited by the exception and the
completion event is **not** fired (the call after the `async with` block has
no `try/finally`). -/
theorem C2_complete_fires_iff_clean_end :
    (∀ o : BackendOutcome, LifecycleEv.onNewRequest ∈ process_request_events o) ∧
    (∀ chunks, LifecycleEv.onRequestComplete ∈
        process_request_events (.streamed chunks true)) ∧
    (∀ chunks, LifecycleEv.onRequestComplete ∉
        process_request_events (.streamed chunks false)) ∧
    LifecycleEv.onRequestComplete ∉ process_request_events .connectError := by
  refine ⟨?_, ?_, ?_, by decide⟩
  · intro o
    cases o with
    | connectError => simp [process_request_events]
    | streamed chunks ended => simp [process_request_events]
  · intro chunks
    by_cases h : chunks.isEmpty <;> simp [process_request_events, h]
  · intro chunks
    by_cases h : chunks.isEmpty <;> simp [process_request_events, h]

/-- Counterexample to C2 as stated: an execution that fired
`on_new_request` and then hit a backend connect error (and likewise one cut
mid-stream) never fires `on_request_complete`. -/
theorem C2_counterexample :
    LifecycleEv.onNewRequest ∈ process_request_events .connectError ∧
    LifecycleEv.onRequestComplete ∉ process_request_events .connectError ∧
    LifecycleEv.onNewRequest ∈
      process_request_events (.streamed [[104, 105]] false) ∧
    LifecycleEv.onRequestComplete ∉
      process_request_events (.streamed [[104, 105]] false) := by
  decide

/-! ### Claim C7 — pending-request records on completion -/

/-- **Claim C7** (corrected): `on_request_complete` does **not** destroy the
pending-request record: both the `request_start_time` and the
`first_token_time` maps are left exactly as they were (the source keeps them
to compute overall latency later). -/
theorem C7_complete_keeps_pending :
    ∀ (st : VllmRouter.RequestStatsMonitor) (url rid : String) (t : ℚ),
      (st.on_request_complete url rid t).request_start_time
          = st.request_start_time ∧
      (st.on_request_complete url rid t).first_token_time
          = st.first_token_time := by
  intro st url rid t
  exact ⟨rfl, rfl⟩

/-- Counterexample to C7 as stated: after a full
`new → response → complete` lifecycle, the monitor still holds the pending
entries for `("u", "r")`. -/
theorem C7_counterexample :
    ((((VllmRouter.RequestStatsMonitor.init 60).on_new_request "u" "r" 0
        ).on_request_response "u" "r" (1/2)
        ).on_request_complete "u" "r" 2).request_start_time.lookup ("u", "r")
      = some 0 ∧
    ((((VllmRouter.RequestStatsMonitor.init 60).on_new_request "u" "r" 0
        ).on_request_response "u" "r" (1/2)
        ).on_request_complete "u" "r" 2).first_token_time.lookup ("u", "r")
      = some (1/2) := by
  constructor <;> rfl

/-! ### Claim C9 — `/v1/models` listing -/

/-- **Claim C9** (code bug): `show_models` reads `endpoint.model_name`, an
attribute `EndpointInfo` does not define (`service_discovery.py` defines
`model_names`), so for any non-empty endpoint snapshot the handler raises
`AttributeError` instead of listing the models; the spec-side behaviour
(`show_models_spec`) would list every distinct model of a multi-model
endpoint.  The empty snapshot never enters the loop and returns the empty
list. -/
theorem C9_show_models_attribute_error :
    show_models [{ url := "http://a:8000", model_names := ["m1", "m2"],
                   added_timestamp := 100, model_label := "" }] =
      .error "AttributeError: 'EndpointInfo' object has no attribute 'model_name'" ∧
    show_models_spec [{ url := "http://a:8000", model_names := ["m1", "m2"],
                        added_timestamp := 100, model_label := "" }] =
      { object := "list"
        data := [{ id := "m1", object := "model", created := 100, owned_by := "vllm" },
                 { id := "m2", object := "model", created := 100, owned_by := "vllm" }] } ∧
    show_models [] = .ok { object := "list", data := [] } := by
  refine ⟨rfl, ?_, rfl⟩
  decide

/-! ### Claim C6 — the formulas reported by `get_request_stats` -/

namespace VllmRouter

/-- For a timestamp-sorted window, popping stale entries from the front (the
source's `while` loop) removes exactly all stale entries (the filter the spec
describes). -/
theorem dropWhile_eq_window_keep :
    ∀ (l : List (ℚ × ℚ)), l.Pairwise (fun a b => a.1 ≤ b.1) → ∀ (c : ℚ),
      l.dropWhile (fun e => decide (e.1 < c)) =
        l.filter (fun e => decide (¬ e.1 < c))
  | [], _, _ => rfl
  | a :: rest, hp, c => by
    obtain ⟨hall, hrest⟩ := List.pairwise_cons.mp hp
    by_cases h : a.1 < c
    · rw [List.dropWhile_cons, List.filter_cons]
      simp [h, dropWhile_eq_window_keep rest hrest c]
    · have hkeep : ∀ e ∈ rest, ¬ e.1 < c :=
        fun e he hlt => h (lt_of_le_of_lt (hall e he) hlt)
      have hfil : rest.filter (fun e => decide (c ≤ e.1)) = rest :=
        List.filter_eq_self.mpr (fun e he => by simpa [not_lt] using hkeep e he)
      rw [List.dropWhile_cons, List.filter_cons]
      simp [h, hfil]

/-- Well-formedness is monotone in the time bound. -/
theorem MovingAverageMonitor.WellFormed.mono
    {m : MovingAverageMonitor} {W t t' : ℚ}
    (h : m.WellFormed W t) (ht : t ≤ t') : m.WellFormed W t' :=
  ⟨h.1, h.2.1, fun e he => (h.2.2 e he).trans ht⟩

/-- `update` at a time `τ` no earlier than every stored entry keeps the
window well formed at `τ`. -/
theorem MovingAverageMonitor.WellFormed.update
    {m : MovingAverageMonitor} {W t τ v : ℚ}
    (h : m.WellFormed W t) (ht : t ≤ τ) :
    (m.update τ v).WellFormed W τ := by
  obtain ⟨hW, hsort, hle⟩ := h
  have happ : (m.window ++ [(τ, v)]).Pairwise (fun a b => a.1 ≤ b.1) := by
    rw [List.pairwise_append]
    refine ⟨hsort, List.pairwise_singleton _ _, ?_⟩
    intro a ha b hb
    have hb2 : b = (τ, v) := by simpa using hb
    rw [hb2]
    exact (hle a ha).trans ht
  refine ⟨hW, ?_, ?_⟩
  · exact List.Pairwise.sublist (List.dropWhile_sublist _) happ
  · intro e he
    have he2 : e ∈ m.window ++ [(τ, v)] :=
      (List.dropWhile_sublist _).subset he
    rcases List.mem_append.mp he2 with h1 | h1
    · exact (hle e h1).trans ht
    · have : e = (τ, v) := by simpa using h1
      rw [this]

/-- A fresh `MovingAverageMonitor(W)` is well formed at any time. -/
theorem MovingAverageMonitor.wellFormed_fresh (W t : ℚ) :
    (⟨W, []⟩ : MovingAverageMonitor).WellFormed W t :=
  ⟨rfl, List.Pairwise.nil, by intro e he; simp at he⟩

/-- The create-then-update step keeps every monitor of the dict well formed
at the event time. -/
theorem monitor_ensure_update_wellFormed
    (mons : List (String × MovingAverageMonitor)) (W : ℚ) (u : String)
    (τ v t : ℚ)
    (h : ∀ url m, mons.lookup url = some m → m.WellFormed W t)
    (ht : t ≤ τ) :
    ∀ url m, (monitor_ensure_update mons W u τ v).lookup url = some m →
      m.WellFormed W τ := by
  intro url m hm
  simp only [monitor_ensure_update] at hm
  cases hlk : mons.lookup u with
  | some m0 =>
    simp only [hlk, Option.isSome_some, if_true] at hm
    rw [lookup_dict_set] at hm
    by_cases he : (url == u) = true
    · rw [if_pos he] at hm
      have hmm : m0.update τ v = m := by simpa using hm
      rw [← hmm]
      exact (h u m0 hlk).update ht
    · rw [if_neg he] at hm
      exact (h url m hm).mono ht
  | none =>
    simp only [hlk, Option.isSome_none, Bool.false_eq_true, if_false,
      lookup_dict_set, beq_self_eq_true, if_true] at hm
    by_cases he : (url == u) = true
    · rw [if_pos he] at hm
      have hmm : MovingAverageMonitor.update ⟨W, []⟩ τ v = m := by simpa using hm
      rw [← hmm]
      exact (MovingAverageMonitor.wellFormed_fresh W t).update ht
    · rw [if_neg he, if_neg he] at hm
      exact (h url m hm).mono ht

/-- One lifecycle event keeps the monitor state well formed, re-timed to the
event's timestamp. -/
theorem RequestStatsMonitor.WellFormed.apply
    {st : RequestStatsMonitor} {t : ℚ} (e : ReqEvent)
    (h : st.WellFormed t) (ht : t ≤ e.time) :
    (st.apply e).WellFormed e.time := by
  obtain ⟨hq, htt⟩ := h
  cases e with
  | new u r τ =>
    refine ⟨?_, ?_⟩
    · intro url m hm
      exact monitor_ensure_update_wellFormed st.qps_monitors
        st.sliding_window_size u τ 1 t hq ht url m hm
    · intro url m hm
      exact (htt url m hm).mono ht
  | response u r τ =>
    cases hlk : st.request_start_time.lookup (u, r) with
    | none =>
      constructor
      · intro url m hm
        simp only [RequestStatsMonitor.apply, RequestStatsMonitor.on_request_response,
          hlk] at hm ⊢
        exact (hq url m hm).mono ht
      · intro url m hm
        simp only [RequestStatsMonitor.apply, RequestStatsMonitor.on_request_response,
          hlk] at hm ⊢
        exact (htt url m hm).mono ht
    | some start =>
      constructor
      · intro url m hm
        simp only [RequestStatsMonitor.apply, RequestStatsMonitor.on_request_response,
          hlk] at hm ⊢
        exact (hq url m hm).mono ht
      · intro url m hm
        simp only [RequestStatsMonitor.apply, RequestStatsMonitor.on_request_response,
          hlk] at hm ⊢
        exact monitor_ensure_update_wellFormed st.ttft_monitors
          st.sliding_window_size u τ (τ - start) t htt ht url m hm
  | complete u r τ =>
    exact ⟨fun url m hm => (hq url m hm).mono ht,
           fun url m hm => (htt url m hm).mono ht⟩
  | swapped u r τ =>
    exact ⟨fun url m hm => (hq url m hm).mono ht,
           fun url m hm => (htt url m hm).mono ht⟩

/-- Events do not change the configured window size. -/
theorem apply_sliding_window_size (st : RequestStatsMonitor) (e : ReqEvent) :
    (st.apply e).sliding_window_size = st.sliding_window_size := by
  cases e with
  | new u r τ => rfl
  | response u r τ =>
    cases hlk : st.request_start_time.lookup (u, r) <;>
      simp [RequestStatsMonitor.apply, RequestStatsMonitor.on_request_response, hlk]
  | complete u r τ => rfl
  | swapped u r τ => rfl

/-- A run of events from a fresh monitor keeps the window size `W`. -/
theorem runEvents_sliding_window_size (W : ℚ) (evs : List ReqEvent) :
    (runEvents W evs).sliding_window_size = W := by
  suffices h : ∀ (l : List ReqEvent) (st : RequestStatsMonitor),
      (l.foldl RequestStatsMonitor.apply st).sliding_window_size =
        st.sliding_window_size by
    exact h evs (RequestStatsMonitor.init W)
  intro l
  induction l with
  | nil => intro st; rfl
  | cons e rest ih =>
    intro st
    rw [List.foldl_cons, ih, apply_sliding_window_size]

/-- The state reached by any wall-clock (time-monotone) event sequence is
well formed at some time. -/
theorem runEvents_wellFormed (W : ℚ) (evs : List ReqEvent)
    (hch : List.Chain' (fun a b => a ≤ b) (evs.map ReqEvent.time)) :
    ∃ t, (runEvents W evs).WellFormed t := by
  have hbase : ∀ t, (RequestStatsMonitor.init W).WellFormed t := by
    intro t
    constructor
    · intro url m hm
      simp [RequestStatsMonitor.init, List.lookup] at hm
    · intro url m hm
      simp [RequestStatsMonitor.init, List.lookup] at hm
  suffices h : ∀ (l : List ReqEvent) (st : RequestStatsMonitor) (t : ℚ),
      st.WellFormed t →
      List.Chain' (fun a b => a ≤ b) (t :: l.map ReqEvent.time) →
      ∃ t', (l.foldl RequestStatsMonitor.apply st).WellFormed t' by
    cases hevs : evs with
    | nil => exact ⟨0, hbase 0⟩
    | cons e rest =>
      refine h (e :: rest) (RequestStatsMonitor.init W) e.time (hbase e.time) ?_
      rw [List.map_cons, List.chain'_cons]
      rw [hevs, List.map_cons] at hch
      exact ⟨le_refl _, hch⟩
  intro l
  induction l with
  | nil =>
    intro st t hwf _
    exact ⟨t, hwf⟩
  | cons e rest ih =>
    intro st t hwf hch2
    rw [List.map_cons, List.chain'_cons] at hch2
    exact ih (st.apply e) e.time (hwf.apply e hch2.1) hch2.2

end VllmRouter

namespace VllmRouter

/-- Looking a key up in a dict of the shape `{u: f(u) for u in urls}` yields
`f` at that key. -/
theorem lookup_map_pair {V : Type} (f : String → V) :
    ∀ (l : List String) (k : String) (v : V),
      (l.map (fun u => (u, f u))).lookup k = some v → v = f k
  | [], k, v, h => by simp [List.lookup] at h
  | u :: rest, k, v, h => by
    by_cases he : (k == u) = true
    · have hk : k = u := by simpa using he
      have hv : f u = v := by simpa [List.lookup, he] using h
      rw [← hv, hk]
    · exact lookup_map_pair f rest k v (by simpa [List.lookup, he] using h)

end VllmRouter

namespace VllmRouter

/-- Under well-formedness, the packed per-url record follows the window
formulas: QPS is the in-window sum over `W` when a qps window exists and `-1`
otherwise; TTFT is the in-window average with `-1` for a missing or empty
window; the three counters are the stored dict entries (0 when absent). -/
theorem stats_for_spec (st : RequestStatsMonitor) (t now : ℚ) (url : String)
    (hwf : st.WellFormed t) :
    ((st.stats_for now url).qps = (match st.qps_monitors.lookup url with
      | some m =>
        ((window_keep st.sliding_window_size now m.window).map Prod.snd).sum /
          st.sliding_window_size
      | none => -1)) ∧
    ((st.stats_for now url).ttft = (match st.ttft_monitors.lookup url with
      | some m =>
        if (window_keep st.sliding_window_size now m.window).isEmpty then -1
        else ((window_keep st.sliding_window_size now m.window).map Prod.snd).sum /
          (window_keep st.sliding_window_size now m.window).length
      | none => -1)) ∧
    (st.stats_for now url).in_prefill_requests =
      dict_getD st.in_prefill_requests url 0 ∧
    (st.stats_for now url).in_decoding_requests =
      dict_getD st.in_decoding_requests url 0 ∧
    (st.stats_for now url).finished_requests =
      dict_getD st.finished_requests url 0 := by
  refine ⟨?_, ?_, rfl, rfl, rfl⟩
  · cases hlk : st.qps_monitors.lookup url with
    | none => simp [RequestStatsMonitor.stats_for, hlk]
    | some m =>
      obtain ⟨hW, hsort, _⟩ := hwf.1 url m hlk
      have hwin : (m.update_no_value now).window =
          window_keep st.sliding_window_size now m.window := by
        simp only [MovingAverageMonitor.update_no_value]
        rw [dropWhile_eq_window_keep m.window hsort, window_keep, hW]
      simp only [RequestStatsMonitor.stats_for, hlk]
      rw [MovingAverageMonitor.get_sum, hwin]
  · cases hlk : st.ttft_monitors.lookup url with
    | none => simp [RequestStatsMonitor.stats_for, hlk]
    | some m =>
      obtain ⟨hW, hsort, _⟩ := hwf.2 url m hlk
      have hwin : (m.update_no_value now).window =
          window_keep st.sliding_window_size now m.window := by
        simp only [MovingAverageMonitor.update_no_value]
        rw [dropWhile_eq_window_keep m.window hsort, window_keep, hW]
      simp only [RequestStatsMonitor.stats_for, hlk]
      rw [MovingAverageMonitor.get_average, hwin]

end VllmRouter

/-- **Claim C6** (corrected): for every time-monotone event history and every
`now`, `get_stats(now)` reports, per known url, QPS equal to the sum of the
url's QPS window entries remaining after evicting entries older than
`now − W`, divided by `W` — when the url has a QPS window at all, and the
sentinel `-1` when it has none (a url can become known through
`on_request_complete` alone and then has no QPS window) — TTFT equal to the
average of the url's evicted TTFT window with `-1` for a missing or empty
window, and the three counters as stored; in particular the
`new(0) → response(0.5) → complete(2)` scenario on a fresh monitor with
`W > 2` reports `ttft = 0.5`, `in_prefill = 0`, `in_decoding = 0`,
`finished = 1` (and `qps = 1/W`). -/
theorem C6_get_request_stats_formulas :
    (∀ (W : ℚ) (evs : List VllmRouter.ReqEvent) (now : ℚ)
        (url : String) (stats : VllmRouter.RequestStats),
        List.Chain' (fun a b => a ≤ b) (evs.map VllmRouter.ReqEvent.time) →
        ((VllmRouter.runEvents W evs).get_request_stats now).lookup url =
          some stats →
        (stats.qps = (match (VllmRouter.runEvents W evs).qps_monitors.lookup url with
          | some m => ((VllmRouter.window_keep W now m.window).map Prod.snd).sum / W
          | none => -1)) ∧
        (stats.ttft = (match (VllmRouter.runEvents W evs).ttft_monitors.lookup url with
          | some m =>
            if (VllmRouter.window_keep W now m.window).isEmpty then -1
            else ((VllmRouter.window_keep W now m.window).map Prod.snd).sum /
              (VllmRouter.window_keep W now m.window).length
          | none => -1)) ∧
        stats.in_prefill_requests =
          dict_getD (VllmRouter.runEvents W evs).in_prefill_requests url 0 ∧
        stats.in_decoding_requests =
          dict_getD (VllmRouter.runEvents W evs).in_decoding_requests url 0 ∧
        stats.finished_requests =
          dict_getD (VllmRouter.runEvents W evs).finished_requests url 0) ∧
    (∀ W : ℚ, 2 < W →
      ((VllmRouter.runEvents W
          [.new "u" "r" 0, .response "u" "r" (1/2), .complete "u" "r" 2]
        ).get_request_stats 2).lookup "u" =
        some { qps := 1 / W, ttft := 1/2, in_prefill_requests := 0,
               in_decoding_requests := 0, finished_requests := 1, uptime := 0,
               avg_decoding_length := -1, avg_latency := -1, avg_itl := -1,
               num_swapped_requests := 0 }) := by
  constructor
  · intro W evs now url stats hch hlk
    obtain ⟨t, hwf⟩ := VllmRouter.runEvents_wellFormed W evs hch
    have hstats : stats =
        (VllmRouter.runEvents W evs).stats_for now url :=
      VllmRouter.lookup_map_pair _ _ _ _ hlk
    have hspec := VllmRouter.stats_for_spec
      (VllmRouter.runEvents W evs) t now url hwf
    rw [VllmRouter.runEvents_sliding_window_size] at hspec
    rw [hstats]
    exact hspec
  · intro W hW
    have h1 : ¬ ((0:ℚ) < 0 - W) := by linarith
    have h2 : ¬ ((1:ℚ)/2 < 1/2 - W) := by linarith
    have h3 : ¬ ((0:ℚ) < 2 - W) := by linarith
    have h4 : ¬ ((1:ℚ)/2 < 2 - W) := by linarith
    simp [VllmRouter.runEvents, VllmRouter.RequestStatsMonitor.apply,
      VllmRouter.RequestStatsMonitor.init,
      VllmRouter.RequestStatsMonitor.on_new_request,
      VllmRouter.RequestStatsMonitor.on_request_response,
      VllmRouter.RequestStatsMonitor.on_request_complete,
      VllmRouter.RequestStatsMonitor.get_request_stats,
      VllmRouter.RequestStatsMonitor.stats_for,
      VllmRouter.monitor_ensure_update,
      VllmRouter.MovingAverageMonitor.update,
      VllmRouter.MovingAverageMonitor.update_no_value,
      VllmRouter.MovingAverageMonitor.get_sum,
      VllmRouter.MovingAverageMonitor.get_average,
      dict_set, dict_getD, List.lookup, h1, h2, h3, h4]
    have b1 : decide ((0:ℚ) < -W) = false := decide_eq_false (by linarith)
    have b2 : decide ((2⁻¹:ℚ) < 2⁻¹ - W) = false := decide_eq_false (by linarith)
    have b3 : decide ((0:ℚ) < 2 - W) = false := decide_eq_false (by linarith)
    have b4 : decide ((2⁻¹:ℚ) < 2 - W) = false := decide_eq_false (by linarith)
    have hneg : ¬ (W < 0) := by linarith
    have hneg2 : ¬ (W < 2) := by linarith
    simp [List.dropWhile_cons, b1, b2, b3, b4, one_div, hneg, hneg2]

/-- Witness for C6: the concrete lifecycle scenario at `W = 10`. -/
theorem C6_get_request_stats_formulas_witness :
    ((VllmRouter.runEvents 10
        [.new "u" "r" 0, .response "u" "r" (1/2), .complete "u" "r" 2]
      ).get_request_stats 2).lookup "u" =
      some { qps := 1 / 10, ttft := 1/2, in_prefill_requests := 0,
             in_decoding_requests := 0, finished_requests := 1, uptime := 0,
             avg_decoding_length := -1, avg_latency := -1, avg_itl := -1,
             num_swapped_requests := 0 } :=
  C6_get_request_stats_formulas.2 10 (by norm_num)

/-- Counterexample to C6 as stated: a url that became known through
`on_request_complete` alone has no QPS window; the claim's formula (empty
window sum over `W`) would report `0`, but `get_stats` reports the sentinel
`-1`. -/
theorem C6_counterexample :
    ((VllmRouter.runEvents 10 [.complete "u" "r" 1]).get_request_stats 2).lookup "u" =
      some { qps := -1, ttft := -1, in_prefill_requests := 0,
             in_decoding_requests := 0, finished_requests := 1, uptime := 0,
             avg_decoding_length := -1, avg_latency := -1, avg_itl := -1,
             num_swapped_requests := 0 } ∧
    ((-1 : ℚ)) ≠ 0 / 10 := by
  constructor
  · rfl
  · norm_num
